import Mathlib

/-!
Verification of the mockingbird backend core against its specification.

The definitions below are a shallow embedding of the Python source:
- `src/backend/app/services/progress.py` (ProgressTracker)
- `src/backend/app/routes/generation.py` (`_generate_speech_background`)
- `src/backend/app/models/mlx_backend.py` (MLXBackend.generate post-processing)
- `src/backend/app/services/storage.py` (voice/generation store)
- `src/backend/app/utils/audio.py` (convert_to_wav dispatch)

Conventions of the embedding:
- Python dicts keyed by strings become association lists with in-place
  update semantics (`setTask`): assignment to an existing key rewrites the
  entry in place, a new key is appended (insertion order preserved),
  `dict.pop(k, None)` removes the entry when present.
- `datetime.now().isoformat()` timestamps become a `Nat` supplied by the
  caller (ISO strings compare lexicographically in the same order as the
  instants they denote, so a `Nat` clock preserves the ordering semantics).
- Python exceptions become `Except String`; external effectful collaborators
  (the model runtime, ffmpeg, the filesystem clock) become explicit
  parameters recording their outcome.
- The opaque `any` result payload stored by `complete_task` is modelled by
  `String` (no claim inspects its contents, only its presence).
-/

namespace Mockingbird

/-! ## Task progress tracker — src/backend/app/services/progress.py -/

/-- `TaskStatus` enum from progress.py. -/
inductive TaskStatus where
  | pending
  | initializing
  | generating
  | processing
  | completed
  | failed
deriving DecidableEq, Repr

/-- One task record: the dict created by `ProgressTracker.create_task`.
`progress` is an `Int` because Python callers may pass negative ints. -/
structure Task where
  status : TaskStatus
  progress : Int
  message : String
  created_at : Nat
  updated_at : Nat
  result : Option String
  error : Option String
deriving DecidableEq, Repr

/-- The `_tasks : Dict[str, Dict]` registry. -/
abbrev Tracker := List (String × Task)

/-- Dict lookup `self._tasks.get(task_id)` / `task_id in self._tasks`. -/
def lookupTask : Tracker → String → Option Task
  | [], _ => none
  | (k, v) :: rest, id => if k = id then some v else lookupTask rest id

/-- Dict assignment `self._tasks[task_id] = rec`: rewrite in place when the
key exists, append otherwise. -/
def setTask : Tracker → String → Task → Tracker
  | [], id, v => [(id, v)]
  | (k, w) :: rest, id, v =>
      if k = id then (id, v) :: rest else (k, w) :: setTask rest id v

/-- `ProgressTracker.create_task`. -/
def create_task (tr : Tracker) (task_id description : String) (now : Nat) :
    Tracker :=
  setTask tr task_id
    { status := .pending
      progress := 0
      message := description
      created_at := now
      updated_at := now
      result := none
      error := none }

/-- `ProgressTracker.update_progress`: partial update; unknown id returns
unchanged; progress clamped with `min(100, max(0, progress))`. -/
def update_progress (tr : Tracker) (task_id : String)
    (status : Option TaskStatus) (progress : Option Int)
    (message : Option String) (now : Nat) : Tracker :=
  match lookupTask tr task_id with
  | none => tr
  | some task =>
      let task := match status with
        | some s => { task with status := s }
        | none => task
      let task := match progress with
        | some p => { task with progress := min 100 (max 0 p) }
        | none => task
      let task := match message with
        | some m => { task with message := m }
        | none => task
      setTask tr task_id { task with updated_at := now }

/-- `ProgressTracker.complete_task`: forces completed/100, stores the result.
Note: the source does not touch the `error` field. -/
def complete_task (tr : Tracker) (task_id : String) (result : String)
    (now : Nat) : Tracker :=
  match lookupTask tr task_id with
  | none => tr
  | some task =>
      setTask tr task_id
        { task with
            status := .completed
            progress := 100
            message := "Completed successfully"
            result := some result
            updated_at := now }

/-- `ProgressTracker.fail_task`: forces failed, stores the error.
Note: the source does not touch `progress` or `result`. -/
def fail_task (tr : Tracker) (task_id : String) (error : String) (now : Nat) :
    Tracker :=
  match lookupTask tr task_id with
  | none => tr
  | some task =>
      setTask tr task_id
        { task with
            status := .failed
            message := "Failed"
            error := some error
            updated_at := now }

/-- `ProgressTracker.get_task`. -/
def get_task (tr : Tracker) (task_id : String) : Option Task :=
  lookupTask tr task_id

/-- `ProgressTracker.delete_task`: `self._tasks.pop(task_id, None)`. -/
def delete_task : Tracker → String → Tracker
  | [], _ => []
  | (k, v) :: rest, id =>
      if k = id then rest else (k, v) :: delete_task rest id

/-! ### Helper lemmas about the registry -/

theorem lookupTask_setTask_self (tr : Tracker) (id : String) (v : Task) :
    lookupTask (setTask tr id v) id = some v := by
  induction tr with
  | nil => simp [setTask, lookupTask]
  | cons hd tl ih =>
      obtain ⟨k, w⟩ := hd
      by_cases hk : k = id
      · simp [setTask, lookupTask, hk]
      · simp [setTask, lookupTask, hk, ih]

theorem delete_task_of_absent (tr : Tracker) (id : String)
    (h : lookupTask tr id = none) : delete_task tr id = tr := by
  induction tr with
  | nil => rfl
  | cons hd tl ih =>
      obtain ⟨k, w⟩ := hd
      by_cases hk : k = id
      · simp [lookupTask, hk] at h
      · simp [lookupTask, hk] at h
        simp [delete_task, hk, ih h]

/-! ## Background generation pipeline —
`_generate_speech_background` in src/backend/app/routes/generation.py

The effectful collaborators (model initialization, synthesis, WAV encoding,
persistence) are modelled by a record of their outcomes for the one call
each receives; a Python exception inside a stage is an `Except.error`
carrying `str(e)`. The wall clock is a single `now` (each Python update
stamps `datetime.now()`; the claims do not depend on the stamp values). -/

/-- Recorded outcomes of the effectful stages of one background run. -/
structure PipelineEnv where
  /-- `tts_service.initialize(model)` / `tts_service.initialize()`. -/
  initOutcome : Except String Unit
  /-- the `(current, total, message)` triples with which the model invokes
  the `generation_progress` callback during `tts_service.generate`
  (the MLX backend uses `(1,5) ... (5,5)`). -/
  genCallbacks : List (Nat × Nat × String)
  /-- `tts_service.generate(...)`: `none` models a `None` return, the
  sample array is a list of samples. -/
  genOutcome : Except String (Option (List Int))
  /-- `audio_service.audio_to_wav_bytes(audio_data)`: the WAV bytes. -/
  wavOutcome : Except String (List Nat)
  /-- `storage_service.create_generation(...)`: the generation metadata
  (opaque here, with the derived `audio_url` attached by the driver). -/
  saveOutcome : Except String String

/-- The `generation_progress` closure: maps model progress into the
30-70% range. Python computes `30 + int((current / total) * 40)` in float;
for the natural arguments the backend actually passes (`current ≤ total = 5`)
this equals natural floor division `30 + current * 40 / total`. -/
def generation_progress (tr : Tracker) (task_id : String)
    (current total : Nat) (message : String) (now : Nat) : Tracker :=
  update_progress tr task_id (some .generating)
    (some (30 + (current * 40) / total)) (some message) now

/-- `_generate_speech_background`: the whole body runs inside a single
`try/except Exception` whose handler calls `fail_task(task_id, str(e))`;
the in-body `raise ValueError(...)` validations land in the same handler. -/
def generate_speech_background (env : PipelineEnv) (tr : Tracker)
    (task_id : String) (now : Nat) : Tracker :=
  let tr1 := update_progress tr task_id (some .initializing) (some 10)
    (some "Initializing TTS model...") now
  match env.initOutcome with
  | .error e => fail_task tr1 task_id e now
  | .ok _ =>
    let tr2 := update_progress tr1 task_id (some .generating) (some 30)
      (some "Generating speech (this may take 1-3 minutes)...") now
    let tr3 := env.genCallbacks.foldl
      (fun acc c => generation_progress acc task_id c.1 c.2.1 c.2.2 now) tr2
    match env.genOutcome with
    | .error e => fail_task tr3 task_id e now
    | .ok none => fail_task tr3 task_id "TTS generation produced no audio data" now
    | .ok (some audio) =>
      if audio.length = 0 then
        fail_task tr3 task_id "TTS generation produced no audio data" now
      else
        let tr4 := update_progress tr3 task_id (some .processing) (some 80)
          (some "Processing audio...") now
        match env.wavOutcome with
        | .error e => fail_task tr4 task_id e now
        | .ok wav =>
          if wav.length < 44 then
            fail_task tr4 task_id "Audio conversion produced invalid WAV data" now
          else
            let tr5 := update_progress tr4 task_id (some .processing) (some 90)
              (some "Saving audio file...") now
            match env.saveOutcome with
            | .error e => fail_task tr5 task_id e now
            | .ok meta => complete_task tr5 task_id meta now

/-! ### Pipeline helper lemmas -/

theorem exists_lookup_update_progress (tr : Tracker) (id : String)
    (st : Option TaskStatus) (p : Option Int) (msg : Option String)
    (now : Nat) (h : ∃ t, lookupTask tr id = some t) :
    ∃ t, lookupTask (update_progress tr id st p msg now) id = some t := by
  obtain ⟨t, ht⟩ := h
  cases st <;> cases p <;> cases msg <;>
    simp [update_progress, ht, lookupTask_setTask_self]

theorem exists_lookup_callbacks (cbs : List (Nat × Nat × String))
    (tr : Tracker) (id : String) (now : Nat)
    (h : ∃ t, lookupTask tr id = some t) :
    ∃ t, lookupTask (cbs.foldl
      (fun acc c => generation_progress acc id c.1 c.2.1 c.2.2 now) tr) id =
      some t := by
  induction cbs generalizing tr with
  | nil => exact h
  | cons c rest ih =>
      exact ih _ (exists_lookup_update_progress _ _ _ _ _ _ h)

theorem fail_task_lookup (tr : Tracker) (id : String) (e : String)
    (now : Nat) (h : ∃ t, lookupTask tr id = some t) :
    ∃ t2, lookupTask (fail_task tr id e now) id = some t2 ∧
      t2.status = .failed ∧ t2.error = some e := by
  obtain ⟨t, ht⟩ := h
  have hrec : lookupTask (fail_task tr id e now) id =
      some { t with
               status := .failed
               message := "Failed"
               error := some e
               updated_at := now } := by
    simp [fail_task, ht, lookupTask_setTask_self]
  exact ⟨_, hrec, rfl, rfl⟩

theorem complete_task_lookup (tr : Tracker) (id : String) (r : String)
    (now : Nat) (h : ∃ t, lookupTask tr id = some t) :
    ∃ t2, lookupTask (complete_task tr id r now) id = some t2 ∧
      t2.status = .completed ∧ t2.result = some r := by
  obtain ⟨t, ht⟩ := h
  have hrec : lookupTask (complete_task tr id r now) id =
      some { t with
               status := .completed
               progress := 100
               message := "Completed successfully"
               result := some r
               updated_at := now } := by
    simp [complete_task, ht, lookupTask_setTask_self]
  exact ⟨_, hrec, rfl, rfl⟩

/-- C2: the background generation pipeline is a total function of the
stage outcomes (within the embedding no exception reaches the caller),
and on an existing task every run ends through `complete_task` or
`fail_task`: the task finishes completed carrying the stored generation
metadata, or failed with the failing stage's message recorded in `error`. -/
theorem background_never_raises (env : PipelineEnv) (tr : Tracker)
    (task_id : String) (now : Nat) (task : Task)
    (h : lookupTask tr task_id = some task) :
    ∃ t2, get_task (generate_speech_background env tr task_id now) task_id =
        some t2 ∧
      ((t2.status = .completed ∧ ∃ m, env.saveOutcome = .ok m ∧
          t2.result = some m) ∨
        (t2.status = .failed ∧ ∃ e, t2.error = some e)) := by
  obtain ⟨initO, cbs, genO, wavO, saveO⟩ := env
  simp only [generate_speech_background, get_task]
  have h1 := exists_lookup_update_progress tr task_id (some .initializing)
    (some 10) (some "Initializing TTS model...") now ⟨task, h⟩
  cases initO with
  | error e =>
      obtain ⟨t2, ha, hb, hc⟩ := fail_task_lookup _ task_id e now h1
      exact ⟨t2, ha, Or.inr ⟨hb, e, hc⟩⟩
  | ok u =>
      dsimp only
      have h2 := exists_lookup_update_progress
        (update_progress tr task_id (some .initializing) (some 10)
          (some "Initializing TTS model...") now)
        task_id (some .generating) (some 30)
        (some "Generating speech (this may take 1-3 minutes)...") now h1
      have h3 := exists_lookup_callbacks cbs _ task_id now h2
      cases genO with
      | error e =>
          obtain ⟨t2, ha, hb, hc⟩ := fail_task_lookup _ task_id e now h3
          exact ⟨t2, ha, Or.inr ⟨hb, e, hc⟩⟩
      | ok ao =>
          cases ao with
          | none =>
              dsimp only
              obtain ⟨t2, ha, hb, hc⟩ := fail_task_lookup _ task_id
                "TTS generation produced no audio data" now h3
              exact ⟨t2, ha, Or.inr ⟨hb, _, hc⟩⟩
          | some audio =>
              dsimp only
              by_cases hlen : audio.length = 0
              · rw [if_pos hlen]
                obtain ⟨t2, ha, hb, hc⟩ := fail_task_lookup _ task_id
                  "TTS generation produced no audio data" now h3
                exact ⟨t2, ha, Or.inr ⟨hb, _, hc⟩⟩
              · rw [if_neg hlen]
                have h4 := exists_lookup_update_progress _ task_id
                  (some .processing) (some 80) (some "Processing audio...")
                  now h3
                cases wavO with
                | error e =>
                    obtain ⟨t2, ha, hb, hc⟩ := fail_task_lookup _ task_id e
                      now h4
                    exact ⟨t2, ha, Or.inr ⟨hb, e, hc⟩⟩
                | ok wav =>
                    dsimp only
                    by_cases hwav : wav.length < 44
                    · rw [if_pos hwav]
                      obtain ⟨t2, ha, hb, hc⟩ := fail_task_lookup _ task_id
                        "Audio conversion produced invalid WAV data" now h4
                      exact ⟨t2, ha, Or.inr ⟨hb, _, hc⟩⟩
                    · rw [if_neg hwav]
                      have h5 := exists_lookup_update_progress _ task_id
                        (some .processing) (some 90)
                        (some "Saving audio file...") now h4
                      cases saveO with
                      | error e =>
                          obtain ⟨t2, ha, hb, hc⟩ := fail_task_lookup _
                            task_id e now h5
                          exact ⟨t2, ha, Or.inr ⟨hb, e, hc⟩⟩
                      | ok meta =>
                          obtain ⟨t2, ha, hb, hc⟩ := complete_task_lookup _
                            task_id meta now h5
                          exact ⟨t2, ha, Or.inl ⟨hb, meta, rfl, hc⟩⟩

/-- C2 witness: a run whose synthesis stage raises ends with the task
failed (error recorded), with no exception escaping. -/
theorem background_never_raises_witness :
    ∃ t2, get_task (generate_speech_background
        { initOutcome := .ok ()
          genCallbacks := [(1, 5, "Loading reference audio...")]
          genOutcome := .error "TTS generation failed: boom"
          wavOutcome := .ok []
          saveOutcome := .ok "meta" }
        (create_task [] "t" "Starting TTS generation..." 0) "t" 1) "t" =
        some t2 ∧
      ((t2.status = .completed ∧
          ∃ m, (Except.ok "meta" : Except String String) = .ok m ∧
            t2.result = some m) ∨
        (t2.status = .failed ∧ ∃ e, t2.error = some e)) :=
  background_never_raises
    { initOutcome := .ok ()
      genCallbacks := [(1, 5, "Loading reference audio...")]
      genOutcome := .error "TTS generation failed: boom"
      wavOutcome := .ok []
      saveOutcome := .ok "meta" }
    (create_task [] "t" "Starting TTS generation..." 0) "t" 1
    { status := .pending, progress := 0,
      message := "Starting TTS generation...", created_at := 0,
      updated_at := 0, result := none, error := none }
    (by decide)

/-! ## MLX backend output post-processing —
`MLXBackend.generate` in src/backend/app/models/mlx_backend.py.

From `results = list(self._model.generate(**gen_kwargs))` onwards the
method validates and reshapes the model output. Sample values are
rationals: `astype(np.float32)` changes the machine representation but
preserves the numeric value of the integers occurring in PCM audio. The
enclosing `except` re-raises every error as
`RuntimeError("TTS generation failed: " + str(e))`; the claims never
inspect the message, so the errors below carry the inner message. -/

/-- The dtype of the returned array; the source only branches on
`audio_data.dtype != np.float32`. -/
inductive NpDtype where
  | float32
  | int16
  | other
deriving DecidableEq, Repr

/-- `np.array(result.audio)`: a one- or two-dimensional array. The 2-D
shape `(n, c)` is a list of `n` frames of `c` channel values each. -/
inductive RawAudio where
  | oneD (samples : List ℚ) (dtype : NpDtype)
  | twoD (frames : List (List ℚ)) (dtype : NpDtype)
deriving DecidableEq, Repr

/-- `len(audio_data)` of a numpy array: frames for 2-D, samples for 1-D. -/
def RawAudio.npLen : RawAudio → Nat
  | .oneD s _ => s.length
  | .twoD f _ => f.length

def RawAudio.npDtype : RawAudio → NpDtype
  | .oneD _ d => d
  | .twoD _ d => d

/-- `audio_data.astype(np.float32)`: value-preserving numeric cast. -/
def astype_float32 (s : List ℚ) : List ℚ :=
  s.map (fun x => x)

/-- `MLXBackend.generate` post-processing: reject an empty result list
("Model did not generate any audio") and empty audio
("Generated audio is empty"), downmix 2-D output with `audio_data[:, 0]`
(numpy raises an IndexError when the second axis is empty — the enclosing
handler turns it into the re-raised RuntimeError), and cast non-float32
data with `astype(np.float32)`. -/
def mlx_postprocess (results : List RawAudio) : Except String (List ℚ) :=
  match results with
  | [] => .error "Model did not generate any audio"
  | audio :: _ =>
    if audio.npLen = 0 then .error "Generated audio is empty"
    else
      let mono : Except String (List ℚ) :=
        match audio with
        | .oneD s _ => .ok s
        | .twoD frames _ =>
          if frames.all (fun r => !r.isEmpty) then
            .ok (frames.map (fun r => r.headD 0))
          else
            .error "index 0 is out of bounds for axis 1 with size 0"
      match mono with
      | .error e => .error e
      | .ok s =>
        if audio.npDtype = .float32 then .ok s else .ok (astype_float32 s)

/-! ## Entity store: voice audio persistence —
`StorageService.create_voice_sample` / `get_voice_audio_path` in
src/backend/app/services/storage.py, with `convert_to_wav` from
src/backend/app/utils/audio.py. -/

/-- A byte string (each entry one byte). -/
abbrev Bytes := List Nat

/-- The `voices/<id>/audio.wav` blobs: the slice of the filesystem the
round-trip claim touches. Metadata and transcription are sibling files
and never alter the audio blob. -/
abbrev VoiceStore := List (String × Bytes)

/-- `Path.write_bytes` on `voices/<id>/audio.wav`. -/
def writeAudio : VoiceStore → String → Bytes → VoiceStore
  | [], id, b => [(id, b)]
  | (k, ob) :: rest, id, b =>
      if k = id then (id, b) :: rest else (k, ob) :: writeAudio rest id b

/-- `_is_valid_wav`: at least 12 bytes, b"RIFF" at offset 0 and b"WAVE"
at offset 8. -/
def is_valid_wav (b : Bytes) : Bool :=
  decide (12 ≤ b.length) && decide (b.take 4 = [82, 73, 70, 70]) &&
    decide ((b.drop 8).take 4 = [87, 65, 86, 69])

/-- `convert_to_wav`: bytes already carrying a WAV header are returned
unchanged; otherwise the ffmpeg/soundfile conversion chain runs — an
external collaborator, modelled by the oracle `conv` (`.error` means both
conversion attempts raised). -/
def convert_to_wav (conv : Bytes → Except String Bytes) (b : Bytes) :
    Except String Bytes :=
  if is_valid_wav b then .ok b else conv b

/-- `StorageService.create_voice_sample`, audio-blob part: convert the
upload (falling back to the raw bytes when conversion raises — the
`except` around `convert_to_wav`) and write `voices/<voice_id>/audio.wav`.
The generated UUID is the parameter `voice_id`. -/
def create_voice_sample (conv : Bytes → Except String Bytes)
    (fs : VoiceStore) (voice_id : String) (audio_data : Bytes) : VoiceStore :=
  let wav_data := match convert_to_wav conv audio_data with
    | .ok w => w
    | .error _ => audio_data
  writeAudio fs voice_id wav_data

/-- `get_voice_audio_path` followed by reading the returned path: the
path exists iff the blob was written, and reading it yields the stored
bytes. -/
def read_voice_audio : VoiceStore → String → Option Bytes
  | [], _ => none
  | (k, b) :: rest, id => if k = id then some b else read_voice_audio rest id

theorem read_voice_audio_writeAudio_self (fs : VoiceStore) (id : String)
    (b : Bytes) : read_voice_audio (writeAudio fs id b) id = some b := by
  induction fs with
  | nil => simp [writeAudio, read_voice_audio]
  | cons hd tl ih =>
      obtain ⟨k, ob⟩ := hd
      by_cases hk : k = id
      · simp [writeAudio, read_voice_audio, hk]
      · simp [writeAudio, read_voice_audio, hk, ih]

/-! ## Generation listing — `StorageService.list_generations` -/

/-- One `generations/<id>/metadata.json` record (the fields the listing
reads). `created_at` ISO-8601 timestamps from one clock compare
lexicographically in chronological order, so they are modelled by
naturals. -/
structure GenMeta where
  id : String
  voice_id : String
  created_at : Nat
deriving DecidableEq, Repr

/-- `list_generations`: keep the discovered metadata records whose
`voice_id` equals the optional filter (`voice_id is None` keeps all),
then `sorted(key=created_at, reverse=True)` — Python's stable descending
sort, i.e. a stable merge sort with `b.created_at ≤ a.created_at`. The
`store` is the list of valid metadata records found on disk (containers
without a metadata file were already skipped). -/
def list_generations (store : List GenMeta) (voice_id : Option String) :
    List GenMeta :=
  let gens := store.filter (fun m =>
    match voice_id with
    | none => true
    | some v => m.voice_id == v)
  gens.mergeSort (fun a b => decide (b.created_at ≤ a.created_at))

/-! ### Backend, store and listing claims -/

/-- C4 counterexample: a successful generation whose model output is a
one-element int16 array with sample value 32000 returns 32000 unchanged:
`astype(np.float32)` casts the representation but does not normalize
integer PCM into [-1, 1]. -/
theorem mlx_integer_pcm_not_normalized :
    mlx_postprocess [.oneD [32000] .int16] = .ok [32000] ∧
      ¬ (∀ x ∈ ([32000] : List ℚ), -1 ≤ x ∧ x ≤ 1) :=
  ⟨rfl, by decide⟩

/-- C4 amended: every successful `MLXBackend.generate` output is
non-empty and single-channel, 2-D output is downmixed to its first
channel, and sample values are returned as produced by the model
(non-float32 data is cast to float32 value-preservingly, not normalized
to [-1, 1]). -/
theorem mlx_generate_output_spec (results : List RawAudio) (out : List ℚ)
    (h : mlx_postprocess results = .ok out) :
    out ≠ [] ∧
      ∃ a rest, results = a :: rest ∧
        (match a with
         | .oneD s _ => out = s
         | .twoD frames _ => out = frames.map (fun r => r.headD 0)) := by
  cases results with
  | nil => simp [mlx_postprocess] at h
  | cons a rest =>
      cases a with
      | oneD s d =>
          by_cases hs : s.length = 0
          · simp [mlx_postprocess, RawAudio.npLen, hs] at h
          · simp only [mlx_postprocess, RawAudio.npLen, RawAudio.npDtype,
              hs, if_false, astype_float32, List.map_id', ite_self,
              Except.ok.injEq] at h
            subst h
            exact ⟨fun hnil => hs (by simp [hnil]),
              ⟨.oneD s d, rest, rfl, rfl⟩⟩
      | twoD frames d =>
          by_cases hf : frames.length = 0
          · simp [mlx_postprocess, RawAudio.npLen, hf] at h
          · by_cases hall : frames.all (fun r => !r.isEmpty) = true
            · simp only [mlx_postprocess, RawAudio.npLen, RawAudio.npDtype,
                hf, if_false, hall, if_true, astype_float32, List.map_id',
                ite_self, Except.ok.injEq] at h
              subst h
              refine ⟨fun hnil => hf ?_, ⟨.twoD frames d, rest, rfl, rfl⟩⟩
              simpa using congrArg List.length hnil
            · simp [mlx_postprocess, RawAudio.npLen, RawAudio.npDtype, hf,
                hall] at h

/-- C4 witness: a concrete two-channel float32 output is accepted, comes
back non-empty, and is downmixed to its first channel. -/
theorem mlx_generate_output_spec_witness :
    ([3, 4] : List ℚ) ≠ [] ∧
      ∃ a rest,
        ([.twoD [[3, 7], [4, 8]] .float32] : List RawAudio) = a :: rest ∧
        (match a with
         | .oneD s _ => ([3, 4] : List ℚ) = s
         | .twoD frames _ =>
             ([3, 4] : List ℚ) = frames.map (fun r => r.headD 0)) :=
  mlx_generate_output_spec [.twoD [[3, 7], [4, 8]] .float32] [3, 4] rfl

/-- C5 counterexample: the byte-identical round trip fails for an upload
that is not already a WAV container. The oracle records the outcome of
the external ffmpeg conversion on one such upload: conversion succeeds
and emits a WAV container (bytes starting with b"RIFF"), which cannot
equal the non-RIFF input. The stored and read-back bytes are the
conversion output, not `B`. -/
theorem voice_roundtrip_counterexample :
    read_voice_audio (create_voice_sample
        (fun _ => .ok [82, 73, 70, 70, 0, 0, 0, 0, 87, 65, 86, 69]) []
        "v1" [0, 1, 2]) "v1" =
      some [82, 73, 70, 70, 0, 0, 0, 0, 87, 65, 86, 69] ∧
      ([82, 73, 70, 70, 0, 0, 0, 0, 87, 65, 86, 69] : Bytes) ≠ [0, 1, 2] :=
  ⟨by decide, by decide⟩

/-- C5 amended: the read-back bytes are exactly what `convert_to_wav`
produced (the raw upload when conversion failed); in particular, for
every upload `B` that already carries a WAV header the round trip is
byte-identical, whatever the conversion oracle does. -/
theorem voice_audio_roundtrip (conv : Bytes → Except String Bytes)
    (fs : VoiceStore) (id : String) (B : Bytes) :
    read_voice_audio (create_voice_sample conv fs id B) id =
        some (match convert_to_wav conv B with
              | .ok w => w
              | .error _ => B) ∧
      (is_valid_wav B = true →
        read_voice_audio (create_voice_sample conv fs id B) id = some B) := by
  constructor
  · simp [create_voice_sample, read_voice_audio_writeAudio_self]
  · intro hB
    simp [create_voice_sample, convert_to_wav, hB,
      read_voice_audio_writeAudio_self]

/-- C5 witness: a valid 12-byte WAV header round-trips byte-identically
even under a conversion oracle that would reject everything. -/
theorem voice_audio_roundtrip_witness :
    read_voice_audio (create_voice_sample (fun _ => .error "unsupported")
        [] "v1" [82, 73, 70, 70, 0, 0, 0, 0, 87, 65, 86, 69]) "v1" =
      some [82, 73, 70, 70, 0, 0, 0, 0, 87, 65, 86, 69] :=
  (voice_audio_roundtrip (fun _ => .error "unsupported") [] "v1"
    [82, 73, 70, 70, 0, 0, 0, 0, 87, 65, 86, 69]).2 (by decide)

/-- C9: `list_generations` with a filter returns exactly the stored
records whose `voice_id` equals the filter (as a permutation, and as a
membership equivalence), without a filter returns all records, and in
both cases the result is pairwise sorted by `created_at` descending. -/
theorem list_generations_spec (store : List GenMeta) (v : String)
    (g : GenMeta) (f : Option String) :
    (list_generations store (some v)).Perm
        (store.filter (fun m => m.voice_id == v)) ∧
      (list_generations store none).Perm store ∧
      (g ∈ list_generations store (some v) ↔ g ∈ store ∧ g.voice_id = v) ∧
      (g ∈ list_generations store none ↔ g ∈ store) ∧
      (list_generations store f).Pairwise
        (fun a b => b.created_at ≤ a.created_at) := by
  have htrans : ∀ a b c : GenMeta,
      decide (b.created_at ≤ a.created_at) = true →
        decide (c.created_at ≤ b.created_at) = true →
        decide (c.created_at ≤ a.created_at) = true := by
    intro a b c hab hbc
    simp only [decide_eq_true_eq] at *
    omega
  have htotal : ∀ a b : GenMeta,
      (decide (b.created_at ≤ a.created_at) ||
        decide (a.created_at ≤ b.created_at)) = true := by
    intro a b
    simp only [Bool.or_eq_true, decide_eq_true_eq]
    omega
  refine ⟨?_, ?_, ?_, ?_, ?_⟩
  · simpa [list_generations] using
      List.mergeSort_perm (store.filter (fun m => m.voice_id == v)) _
  · simpa [list_generations] using
      List.mergeSort_perm (store.filter (fun _ => true)) _
  · simp [list_generations, List.mem_filter]
  · simp [list_generations, List.mem_filter]
  · exact (List.sorted_mergeSort htrans htotal _).imp
      (fun h => of_decide_eq_true h)

/-! ### Tracker claims -/

/-- C6: for every existing task and every integer passed to
`update_progress`, the stored `progress` is `min 100 (max 0 p)`, hence
always within `[0, 100]`. -/
theorem update_progress_clamps (tr : Tracker) (id : String) (task : Task)
    (st : Option TaskStatus) (p : Int) (msg : Option String) (now : Nat)
    (h : lookupTask tr id = some task) :
    ∃ t2, get_task (update_progress tr id st (some p) msg now) id = some t2 ∧
      t2.progress = min 100 (max 0 p) ∧ 0 ≤ t2.progress ∧ t2.progress ≤ 100 := by
  cases st <;> cases msg <;>
    simp [update_progress, h, get_task, lookupTask_setTask_self]

/-- C6 witness: updating with -5 stores 0 and updating with 150 stores 100. -/
theorem update_progress_clamps_witness :
    (∃ t2, get_task (update_progress (create_task [] "t1" "d" 0) "t1" none
        (some (-5)) none 1) "t1" = some t2 ∧
      t2.progress = min 100 (max 0 (-5)) ∧ 0 ≤ t2.progress ∧ t2.progress ≤ 100) ∧
    (∃ t2, get_task (update_progress (create_task [] "t1" "d" 0) "t1" none
        (some 150) none 1) "t1" = some t2 ∧
      t2.progress = min 100 (max 0 150) ∧ 0 ≤ t2.progress ∧ t2.progress ≤ 100) :=
  ⟨update_progress_clamps (create_task [] "t1" "d" 0) "t1"
      { status := .pending, progress := 0, message := "d", created_at := 0,
        updated_at := 0, result := none, error := none }
      none (-5) none 1 (by decide),
   update_progress_clamps (create_task [] "t1" "d" 0) "t1"
      { status := .pending, progress := 0, message := "d", created_at := 0,
        updated_at := 0, result := none, error := none }
      none 150 none 1 (by decide)⟩

/-- C7: `update_progress` on an id absent from the registry is a no-op:
the registry is returned unchanged (and, the function being total, nothing
is raised). -/
theorem update_progress_unknown_noop (tr : Tracker) (id : String)
    (st : Option TaskStatus) (p : Option Int) (msg : Option String) (now : Nat)
    (h : lookupTask tr id = none) :
    update_progress tr id st p msg now = tr := by
  simp [update_progress, h]

/-- C7 witness: updating an unknown id in a nonempty registry changes
nothing. -/
theorem update_progress_unknown_noop_witness :
    update_progress (create_task [] "t1" "d" 0) "ghost"
      (some .generating) (some 40) (some "m") 5 = create_task [] "t1" "d" 0 :=
  update_progress_unknown_noop (create_task [] "t1" "d" 0) "ghost"
    (some .generating) (some 40) (some "m") 5 (by decide)

/-- C8: `fail_task` on an existing task forces status `failed`, stores the
error text, and leaves `progress` at its previous value. -/
theorem fail_task_spec (tr : Tracker) (id : String) (task : Task)
    (err : String) (now : Nat) (h : lookupTask tr id = some task) :
    get_task (fail_task tr id err now) id =
      some { task with
               status := .failed
               message := "Failed"
               error := some err
               updated_at := now } := by
  simp [fail_task, h, get_task, lookupTask_setTask_self]

/-- C8 witness: failing a task at progress 55 yields status failed,
progress 55, error "boom". -/
theorem fail_task_spec_witness :
    get_task (fail_task (update_progress (create_task [] "t2" "d" 0)
        "t2" none (some 55) none 1) "t2" "boom" 2) "t2" =
      some { status := .failed
             progress := 55
             message := "Failed"
             created_at := 0
             updated_at := 2
             result := none
             error := some "boom" } :=
  fail_task_spec
    (update_progress (create_task [] "t2" "d" 0) "t2" none (some 55) none 1)
    "t2"
    { status := .pending, progress := 55, message := "d", created_at := 0,
      updated_at := 1, result := none, error := none }
    "boom" 2 (by decide)

/-- C10: on an id absent from the registry, `complete_task`, `fail_task`
and `delete_task` all leave the registry unchanged (and never raise). -/
theorem mutating_ops_unknown_noop (tr : Tracker) (id : String)
    (r e : String) (now : Nat) (h : lookupTask tr id = none) :
    complete_task tr id r now = tr ∧ fail_task tr id e now = tr ∧
      delete_task tr id = tr :=
  ⟨by simp [complete_task, h], by simp [fail_task, h],
   delete_task_of_absent tr id h⟩

/-- C10 witness: the three mutating operations on an unknown id in a
nonempty registry change nothing. -/
theorem mutating_ops_unknown_noop_witness :
    complete_task (create_task [] "t1" "d" 0) "ghost" "r" 3 =
        create_task [] "t1" "d" 0 ∧
      fail_task (create_task [] "t1" "d" 0) "ghost" "e" 3 =
        create_task [] "t1" "d" 0 ∧
      delete_task (create_task [] "t1" "d" 0) "ghost" =
        create_task [] "t1" "d" 0 :=
  mutating_ops_unknown_noop (create_task [] "t1" "d" 0) "ghost" "r" "e" 3
    (by decide)

/-- C1 counterexample: fail a task, then complete it. The completed task
carries BOTH a result and the stale error: `complete_task` never clears
`error`, so the exactly-one-of-result/error invariant fails. -/
theorem complete_after_fail_keeps_error :
    (get_task (complete_task (fail_task (create_task [] "t1" "d" 0)
        "t1" "boom" 1) "t1" "gen" 2) "t1").map Task.status =
      some .completed ∧
    (get_task (complete_task (fail_task (create_task [] "t1" "d" 0)
        "t1" "boom" 1) "t1" "gen" 2) "t1").map Task.result =
      some (some "gen") ∧
    (get_task (complete_task (fail_task (create_task [] "t1" "d" 0)
        "t1" "boom" 1) "t1" "gen" 2) "t1").map Task.error =
      some (some "boom") := by
  exact ⟨by decide, by decide, by decide⟩

/-- C1 amended: `complete_task` on an existing task forces status
completed, progress 100, stores the result — and leaves any prior `error`
field unchanged (it is not cleared). -/
theorem complete_task_spec (tr : Tracker) (id : String) (task : Task)
    (r : String) (now : Nat) (h : lookupTask tr id = some task) :
    get_task (complete_task tr id r now) id =
      some { task with
               status := .completed
               progress := 100
               message := "Completed successfully"
               result := some r
               updated_at := now } := by
  simp [complete_task, h, get_task, lookupTask_setTask_self]

/-- C1 witness: completing a previously failed task keeps its error. -/
theorem complete_task_spec_witness :
    get_task (complete_task (fail_task (create_task [] "t1" "d" 0)
        "t1" "boom" 1) "t1" "gen" 2) "t1" =
      some { status := .completed
             progress := 100
             message := "Completed successfully"
             created_at := 0
             updated_at := 2
             result := some "gen"
             error := some "boom" } :=
  complete_task_spec (fail_task (create_task [] "t1" "d" 0) "t1" "boom" 1)
    "t1"
    { status := .failed, progress := 0, message := "Failed", created_at := 0,
      updated_at := 1, result := none, error := some "boom" } "gen" 2 (by decide)

/-- C3 counterexample: a completed task updated with status `generating`
leaves the terminal state — terminal states are not absorbing under
`update_progress`. -/
theorem terminal_state_not_absorbing :
    (get_task (complete_task (create_task [] "t1" "d" 0) "t1" "gen" 1)
        "t1").map Task.status = some .completed ∧
    (get_task (update_progress (complete_task (create_task [] "t1" "d" 0)
        "t1" "gen" 1) "t1" (some .generating) (some 40) none 2)
        "t1").map Task.status = some .generating := by
  exact ⟨by decide, by decide⟩

/-- C3 amended: `update_progress` applies any explicitly supplied status
unconditionally — even to a task in a terminal state — and leaves the
status unchanged only when no status argument is supplied. -/
theorem update_progress_status_spec (tr : Tracker) (id : String)
    (task : Task) (s : TaskStatus) (p : Option Int) (msg : Option String)
    (now : Nat) (h : lookupTask tr id = some task) :
    (get_task (update_progress tr id (some s) p msg now) id).map Task.status =
        some s ∧
      (get_task (update_progress tr id none p msg now) id).map Task.status =
        some task.status := by
  cases p <;> cases msg <;>
    simp [update_progress, h, get_task, lookupTask_setTask_self]

/-- C3 witness: a completed task is moved back to `generating` by an
explicit status update. -/
theorem update_progress_status_spec_witness :
    (get_task (update_progress (complete_task (create_task [] "t1" "d" 0)
        "t1" "gen" 1) "t1" (some .generating) (some 40) none 2)
        "t1").map Task.status = some .generating ∧
      (get_task (update_progress (complete_task (create_task [] "t1" "d" 0)
        "t1" "gen" 1) "t1" none (some 40) none 2)
        "t1").map Task.status = some TaskStatus.completed :=
  ⟨(update_progress_status_spec
      (complete_task (create_task [] "t1" "d" 0) "t1" "gen" 1) "t1"
      { status := .completed, progress := 100,
        message := "Completed successfully", created_at := 0, updated_at := 1,
        result := some "gen", error := none }
      .generating (some 40) none 2 (by decide)).1,
   (update_progress_status_spec
      (complete_task (create_task [] "t1" "d" 0) "t1" "gen" 1) "t1"
      { status := .completed, progress := 100,
        message := "Completed successfully", created_at := 0, updated_at := 1,
        result := some "gen", error := none }
      .generating (some 40) none 2 (by decide)).2⟩

end Mockingbird
